import Mathlib

/-!
Shallow embedding of the loki screen-capture pipeline (Rust sources under
`src/`): pixel-format conversion, the D3D11 texture readback helper, the
bounded frame hand-off channel, the staging-slot ring with its frame
counter, and the capture-session lifecycle of the two provider
implementations (`WgcCaptureProvider` in `wgc_capture_provider.rs` and
`WindowsCaptureProvider` in `capture_provider.rs`).

Machine integers are modelled as `Nat` with explicit reduction modulo
`2 ^ 64` where `u64` wraparound matters.  Fallible platform calls (COM /
D3D11) are modelled as explicit outcome parameters ("oracles") supplied to
the embedded functions, so that each function is a pure, executable
translation of the source's control flow.
-/

namespace Loki

/-! ## Shared data model (`src/capture_providers/shared`) -/

/-- Pixel formats, from `shared/frame.rs`. -/
inductive PixelFormat
  | RGBA8
  | BGRA8
deriving DecidableEq, Repr

/-- Source: `bgra_to_rgba` from `src/utils/image_utils.rs`: for each complete
4-byte chunk of the buffer, swap bytes 0 and 2 (B and R); a trailing
chunk of fewer than 4 bytes is not touched (`chunks_exact_mut(4)`). -/
def bgra_to_rgba : List UInt8 → List UInt8
  | b :: g :: r :: a :: rest => r :: g :: b :: a :: bgra_to_rgba rest
  | rest => rest

/-- Error type of `src/utils/image_utils.rs`. -/
inductive ImageError
  | PixelFormatNotSupported
deriving DecidableEq, Repr

/-- Source: `ensure_image_rgba` from `src/utils/image_utils.rs`: RGBA8 input is
left unchanged, BGRA8 input is converted with `bgra_to_rgba`; the
resulting format is always RGBA8. -/
def ensure_image_rgba (bytes : List UInt8) (fmt : PixelFormat) :
    List UInt8 × PixelFormat :=
  match fmt with
  | .RGBA8 => (bytes, .RGBA8)
  | .BGRA8 => (bgra_to_rgba bytes, .RGBA8)

/-- 2-d vector with `i32` components (`shared/vector2.rs`, re-exported by
`shared/mod.rs`; only carried around, never computed with). -/
structure Vector2 where
  x : Int
  y : Int
deriving DecidableEq, Repr

/-- Dirty rectangle (`shared/rect.rs`): a position and a size, here with
`i32` components as used for dirty regions. -/
structure Rect where
  position : Vector2
  size : Vector2
deriving DecidableEq, Repr

/-- A captured frame, from `shared/frame.rs`. -/
structure Frame where
  data : List UInt8
  format : PixelFormat
  size : Vector2
  timestamp : Int
  dirty_rects : List Rect
deriving DecidableEq, Repr

/-- Source: `Frame::new_ensure_rgba` (constructor used by both providers; the
constructor body is not under `src/`, but `ensure_image_rgba` is, and the
constructor's name and call sites show it normalises the buffer to RGBA8
with exactly that helper). -/
def Frame.new_ensure_rgba (data : List UInt8) (fmt : PixelFormat)
    (size : Vector2) (timestamp : Int) (dirty_rects : List Rect) : Frame :=
  let converted := ensure_image_rgba data fmt
  { data := converted.1, format := converted.2, size := size,
    timestamp := timestamp, dirty_rects := dirty_rects }

/-! ## `read_texture` (`src/capture_providers/windows/d3d11_utils.rs`)

The mapped staging surface is modelled as a total byte function
`src : Nat → UInt8` (the CPU-visible memory reached through
`mapped.pData`), together with its `RowPitch`.  The source allocates a
tightly packed output of `bytes_per_row * height` bytes and, for each row
`y`, copies `bytes_per_row` bytes from source offset `y * row_pitch` to
output offset `y * bytes_per_row`; `read_rows` builds exactly that
output, row by row in loop order. -/

/-- The first `rows` rows of the packed output: row `y` is the
`bytes_per_row` bytes of the mapped data starting at `y * row_pitch`. -/
def read_rows (bytes_per_row row_pitch : Nat) (src : Nat → UInt8) :
    Nat → List UInt8
  | 0 => []
  | y + 1 =>
    read_rows bytes_per_row row_pitch src y ++
      (List.range bytes_per_row).map (fun i => src (y * row_pitch + i))

/-- Texture description: the `Width`/`Height` fields of
`D3D11_TEXTURE2D_DESC` (`u32`) that the readback helpers consult. -/
structure TexDesc where
  Width : Nat
  Height : Nat
deriving DecidableEq, Repr

/-- Source: `read_texture::<BYTES_PER_PIXEL>` from `d3d11_utils.rs`, after the
copy/map steps succeeded: `bytes_per_row = Width * BYTES_PER_PIXEL`, and
each of the `Height` rows is copied from the mapped data at the row-pitch
stride into the tightly packed output. -/
def read_texture (bytesPerPixel : Nat) (tex_desc : TexDesc)
    (row_pitch : Nat) (src : Nat → UInt8) : List UInt8 :=
  read_rows (tex_desc.Width * bytesPerPixel) row_pitch src tex_desc.Height

/-! ## Frame hand-off channel

Both providers hand frames to the consumer through a
`tokio::sync::mpsc::channel(2)` bounded channel, using `try_send`.  The
channel is embedded by its contract: a bounded FIFO buffer plus a closed
flag; `try_send` fails with `Closed` if the receiver is gone, with `Full`
if `capacity` messages are already buffered, and otherwise appends. -/

/-- Bounded mpsc channel state. -/
structure Channel (α : Type) where
  capacity : Nat
  buffered : List α
  closed : Bool
deriving DecidableEq, Repr

/-- Source: `tokio::sync::mpsc::error::TrySendError`. -/
inductive TrySendError
  | Full
  | Closed
deriving DecidableEq, Repr

/-- Source: `Sender::try_send`: non-blocking; returns the new channel state and
the error, if any.  On `Closed` and `Full` the channel is unchanged. -/
def Channel.try_send {α : Type} (ch : Channel α) (x : α) :
    Channel α × Option TrySendError :=
  if ch.closed then (ch, some .Closed)
  else if ch.capacity ≤ ch.buffered.length then (ch, some .Full)
  else ({ ch with buffered := ch.buffered ++ [x] }, none)

/-- The send step of `WgcCaptureProvider::process_frame`
(`wgc_capture_provider.rs` lines 182-190): `try_send`, with both error
arms only logging — the frame is dropped and nothing is propagated. -/
def send_frame (ch : Channel Frame) (f : Frame) : Channel Frame :=
  match ch.try_send f with
  | (ch', none) => ch'
  | (ch', some .Closed) => ch'
  | (ch', some .Full) => ch'

/-- Repeated producer sends with no consumer activity; returns the final
channel state and the number of sends that were dropped. -/
def send_all {α : Type} (ch : Channel α) : List α → Channel α × Nat
  | [] => (ch, 0)
  | f :: fs =>
    let step := ch.try_send f
    let rest := send_all step.1 fs
    (rest.1, (if step.2.isSome then 1 else 0) + rest.2)

/-! ## Staging state (`WgcCaptureProvider`) -/

/-- Source: `WgcCaptureProvider::PIPELINE_DEPTH`. -/
def PIPELINE_DEPTH : Nat := 2

/-- Source: `u64` modulus, for the wrapping frame-counter arithmetic. -/
def U64_MOD : Nat := 2 ^ 64

/-- Staging textures are opaque GPU handles; modelled as `Nat` ids. -/
abbrev Texture := Nat

/-- The `Staging` struct of `wgc_capture_provider.rs`: the staging
texture ring, the `u64` frame counter, and the geometry the ring was
allocated for. -/
structure Staging where
  textures : List Texture
  frame_count : Nat
  width : Nat
  height : Nat
deriving DecidableEq, Repr

/-- Source: `D3D11_TEXTURE2D_DESC` creation outcome: `device.CreateTexture2D`
either yields a texture or fails with an HRESULT error.  The outcome of
the `i`-th creation call inside one `ensure_staging_state` invocation is
supplied by the oracle `alloc`. -/
abbrev AllocOracle := Nat → Except Unit Texture

/-- The allocation loop of `ensure_staging_state`
(`for _ in 0..Self::PIPELINE_DEPTH { ... }`): each iteration calls
`CreateTexture2D` and pushes the new texture, or returns the error
immediately — leaving the already-pushed textures in place, since the
state lives behind the `RwLock`. -/
def push_loop (alloc : AllocOracle) (i : Nat) (st : Staging) :
    Nat → Staging × Option Unit
  | 0 => (st, none)
  | n + 1 =>
    match alloc i with
    | .error e => (st, some e)
    | .ok t =>
      push_loop alloc (i + 1) { st with textures := st.textures ++ [t] } n

/-- Source: `WgcCaptureProvider::ensure_staging_state`
(`wgc_capture_provider.rs` lines 195-237): if the texture ring is empty
or the recorded geometry differs from the incoming description, clear
the ring, record the new geometry, reset the frame counter to 0 and
allocate `PIPELINE_DEPTH` fresh textures (aborting on the first creation
failure); otherwise return the state unchanged. -/
def ensure_staging_state (alloc : AllocOracle) (st : Staging)
    (desc : TexDesc) : Staging × Option Unit :=
  if st.textures.isEmpty || st.width ≠ desc.Width || st.height ≠ desc.Height
  then
    push_loop alloc 0
      { st with textures := [], width := desc.Width, height := desc.Height,
                frame_count := 0 }
      PIPELINE_DEPTH
  else (st, none)

/-- Write-slot index (`wgc_capture_provider.rs` line 139):
`(staging.frame_count % Self::PIPELINE_DEPTH as u64) as usize`. -/
def write_idx (frame_count : Nat) : Nat :=
  frame_count % PIPELINE_DEPTH

/-- Read-slot index (`wgc_capture_provider.rs` line 146):
`(staging.frame_count.wrapping_sub(1)) as usize % Self::PIPELINE_DEPTH`;
`wrapping_sub(1)` on `u64` is addition of `2 ^ 64 - 1` modulo `2 ^ 64`,
and the `as usize` cast is the identity on a 64-bit target. -/
def read_idx (frame_count : Nat) : Nat :=
  ((frame_count + (U64_MOD - 1)) % U64_MOD) % PIPELINE_DEPTH

/-! ## `WgcCaptureProvider::process_frame`

The fallible COM/D3D11 calls of one frame arrival are supplied as an
environment of outcomes; `process_frame` is the straight-line
translation of `wgc_capture_provider.rs` lines 80-193.  Rust `Vec`
indexing (`staging.textures[i]`) panics when out of bounds, so the model
has an explicit panic outcome for it. -/

/-- Error enum used by `WgcCaptureProvider` (`WindowsCaptureError`; the
variants are taken from their construction sites in
`wgc_capture_provider.rs` and from `windows/error.rs` — the wgc
revision's own error module is not under `src/`).  `MapReadFailed`
stands for the opaque error propagated out of `map_read_texture`. -/
inductive WindowsCaptureError
  | AlreadyCapturing
  | NotCapturing
  | NoFramePool
  | NoCaptureItem
  | FailedToGetSurface
  | CastFailed
  | FailedToGetInterface
  | FailedToGetContentSize
  | FailedToGetDevice
  | FailedToGetImmediateContext
  | FailedToCreateTexture
  | MapReadFailed
  | FailedToStartCapture
deriving DecidableEq, Repr

/-- Outcomes of the platform calls made during one
`WgcCaptureProvider::process_frame` invocation, in source order.
`desc` is the `D3D11_TEXTURE2D_DESC` obtained from `GetDesc` (always
available once the texture interface was obtained), `alloc` the
`CreateTexture2D` outcomes inside `ensure_staging_state`, and
`map_read` the bytes deposited in the pooled frame buffer by
`map_read_texture` (or its failure). -/
structure WgcEnv where
  surface : Except Unit Unit
  cast_access : Except Unit Unit
  get_interface : Except Unit Texture
  content_size : Except Unit Vector2
  get_device : Except Unit Unit
  get_context : Except Unit Unit
  desc : TexDesc
  alloc : AllocOracle
  map_read : Except Unit (List UInt8)
  sys_time : Except Unit Int
  dirty : Except Unit (List Rect)

/-- Result of one `process_frame` call: a caught error (returned as
`Err` to the frame-arrival handler, which only logs it), a panic from
out-of-bounds slot indexing, or success together with the staging
texture the GPU copy targeted and the one mapped for CPU read. -/
inductive PfOutcome
  | err (e : WindowsCaptureError) (st : Staging) (ch : Channel Frame)
  | panic (st : Staging) (ch : Channel Frame)
  | ok (st : Staging) (ch : Channel Frame) (copy_dst read_src : Texture)
deriving DecidableEq, Repr

/-- Source: `WgcCaptureProvider::process_frame` (`wgc_capture_provider.rs`
lines 80-193). -/
def wgc_process_frame (env : WgcEnv) (staging0 : Staging)
    (ch : Channel Frame) : PfOutcome :=
  match env.surface with
  | .error _ => .err .FailedToGetSurface staging0 ch
  | .ok _ =>
  match env.cast_access with
  | .error _ => .err .CastFailed staging0 ch
  | .ok _ =>
  match env.get_interface with
  | .error _ => .err .FailedToGetInterface staging0 ch
  | .ok _texture =>
  match env.content_size with
  | .error _ => .err .FailedToGetContentSize staging0 ch
  | .ok size =>
  match env.get_device with
  | .error _ => .err .FailedToGetDevice staging0 ch
  | .ok _ =>
  match env.get_context with
  | .error _ => .err .FailedToGetImmediateContext staging0 ch
  | .ok _ =>
  match ensure_staging_state env.alloc staging0 env.desc with
  | (st1, some _) => .err .FailedToCreateTexture st1 ch
  | (st1, none) =>
  match st1.textures[write_idx st1.frame_count]? with
  | none => .panic st1 ch
  | some write_tex =>
  match st1.textures[read_idx st1.frame_count]? with
  | none => .panic st1 ch
  | some read_tex =>
  match env.map_read with
  | .error _ => .err .MapReadFailed st1 ch
  | .ok data =>
  let st2 := { st1 with frame_count := (st1.frame_count + 1) % U64_MOD }
  let ts := match env.sys_time with | .ok t => t | .error _ => 0
  let dirty := match env.dirty with | .ok d => d | .error _ => []
  let fr := Frame.new_ensure_rgba data PixelFormat.RGBA8 size ts dirty
  .ok st2 (send_frame ch fr) write_tex read_tex

/-! ## `WgcCaptureProvider` session state and lifecycle -/

/-- The `WgcCaptureProvider` struct (`wgc_capture_provider.rs` lines
47-58); the platform handles (capture item, frame pool, session) and the
handler registration tokens are opaque. -/
structure WgcCaptureProvider where
  capture_item : Option Nat
  staging : Staging
  frame_pool : Option Nat
  session : Option Nat
  stream_tokens : List Int
  capturing : Bool
deriving DecidableEq, Repr

/-- The cases the `FrameArrived` handler installed by
`WgcCaptureProvider::create_stream` (lines 296-325) distinguishes:
no sender supplied, `TryGetNextFrame` failed, or a frame obtained and
handed to `process_frame` with the call outcomes `env`. -/
inductive HandlerStep
  | no_sender
  | no_next_frame
  | frame (env : WgcEnv)

/-- Result of running the `FrameArrived` handler closure: either it
returned (always with `Ok(())` — errors from `process_frame` are only
logged), or a panic escaped it. -/
inductive HandlerOutcome
  | returned (p : WgcCaptureProvider) (ch : Channel Frame)
  | panicked (p : WgcCaptureProvider) (ch : Channel Frame)
deriving DecidableEq, Repr

/-- The `FrameArrived` handler body of `WgcCaptureProvider::create_stream`
(`wgc_capture_provider.rs` lines 296-325): every early exit and the
`process_frame` error arm return `Ok(())`; only the staging state (via
the shared lock) and the channel are touched. -/
def wgc_on_frame_arrived (step : HandlerStep) (p : WgcCaptureProvider)
    (ch : Channel Frame) : HandlerOutcome :=
  match step with
  | .no_sender => .returned p ch
  | .no_next_frame => .returned p ch
  | .frame env =>
    match wgc_process_frame env p.staging ch with
    | .err _ st' ch' => .returned { p with staging := st' } ch'
    | .panic st' ch' => .panicked { p with staging := st' } ch'
    | .ok st' ch' _ _ => .returned { p with staging := st' } ch'

/-- Source: `WgcCaptureProvider::set_capture_item` (`wgc_capture_provider.rs`
lines 345-360): stores the item and resets the staging state (clears the
textures and zeroes the frame counter); it performs no state check and
always returns `Ok(())`. -/
def wgc_set_capture_item (p : WgcCaptureProvider) (item : Nat) :
    WgcCaptureProvider × Option WindowsCaptureError :=
  ({ p with capture_item := some item,
            staging := { p.staging with textures := [], frame_count := 0 } },
   none)

/-- Source: `WgcCaptureProvider::start_capture` (`wgc_capture_provider.rs` lines
362-381).  `start_ok` is the outcome of `session.StartCapture()` when a
session exists. -/
def wgc_start_capture (p : WgcCaptureProvider) (start_ok : Bool) :
    WgcCaptureProvider × Option WindowsCaptureError :=
  if p.capturing then (p, some .AlreadyCapturing)
  else if p.capture_item.isNone then (p, some .NoCaptureItem)
  else
    match p.session with
    | some _ =>
      if start_ok then ({ p with capturing := true }, none)
      else (p, some .FailedToStartCapture)
    | none => ({ p with capturing := true }, none)

/-- Source: `WgcCaptureProvider::stop_capture` (`wgc_capture_provider.rs` lines
383-402): a no-op returning `Ok(())` when not capturing; otherwise the
session, if any, is closed, and — only under the source's
`if let Some(frame_pool)` guard (lines 391-396) — the registered
handler tokens are drained and unregistered and the frame pool is
closed; with no frame pool the token list is left as it is.  Finally
the session and frame-pool fields are cleared and the capturing flag
reset (all platform-call failures are ignored with `.ok()`). -/
def wgc_stop_capture (p : WgcCaptureProvider) :
    WgcCaptureProvider × Option WindowsCaptureError :=
  if !p.capturing then (p, none)
  else
    let tokens :=
      match p.frame_pool with
      | some _ => ([] : List Int)
      | none => p.stream_tokens
    ({ p with session := none, frame_pool := none, stream_tokens := tokens,
              capturing := false },
     none)

/-! ## `WindowsCaptureProvider` (`capture_provider.rs`)

The other provider revision, the one wired into `windows/mod.rs`. -/

/-- The `WindowsCaptureProvider` struct (`capture_provider.rs` lines
23-33). -/
structure WindowsCaptureProvider where
  frame_pool : Option Nat
  capture_item : Option Nat
  session : Option Nat
  staging_texture : Option Texture
  active_handlers : List Int
  capturing : Bool
deriving DecidableEq, Repr

/-- Platform-call outcomes for one
`WindowsCaptureProvider::process_frame` invocation, in source order. -/
structure WinEnv where
  surface : Except Unit Unit
  cast_access : Except Unit Unit
  get_interface : Except Unit Unit
  content_size : Except Unit Vector2
  get_device : Except Unit Unit
  staging_create : Except Unit Texture
  get_context : Except Unit Unit
  read_texture_result : Except Unit (List UInt8)
  sys_time : Except Unit Int
  dirty : Except Unit (List Rect)

/-- Result of `WindowsCaptureProvider::process_frame`: an early
`return Ok(())` that skips the frame, a panic (from the `.expect` on
`read_texture`), or a frame emitted into the channel;
`staging` is the staging-texture slot after the call (it is shared
through the `Arc<RwLock<..>>`). -/
inductive WinPfOutcome
  | skipped (staging : Option Texture) (ch : Channel Frame)
  | panicked (staging : Option Texture) (ch : Channel Frame)
  | emitted (staging : Option Texture) (ch : Channel Frame)
deriving DecidableEq, Repr

/-- Continuation of `WindowsCaptureProvider::process_frame` after the
staging texture has been obtained (`capture_provider.rs` lines
159-212): get the context, call `read_texture` — whose failure hits
`.expect("Unable to read texture into byte array!")` and panics —, get
the timestamp (failure skips the frame), collect dirty regions (failure
yields an empty list), build the frame with `Frame::new_ensure_rgba`
from BGRA8 and `try_send` it, dropping it if the channel is full or
closed. -/
def win_process_rest (env : WinEnv) (staging : Option Texture)
    (ch : Channel Frame) (size : Vector2) : WinPfOutcome :=
  match env.get_context with
  | .error _ => .skipped staging ch
  | .ok _ =>
  match env.read_texture_result with
  | .error _ => .panicked staging ch
  | .ok data =>
  match env.sys_time with
  | .error _ => .skipped staging ch
  | .ok ts =>
  let dirty := match env.dirty with | .ok d => d | .error _ => []
  let fr := Frame.new_ensure_rgba data PixelFormat.BGRA8 size ts dirty
  .emitted staging (send_frame ch fr)

/-- Source: `WindowsCaptureProvider::process_frame` (`capture_provider.rs` lines
74-213): every fallible step up to and including staging-texture
creation logs and returns `Ok(())` on failure, skipping the frame; a
missing staging texture is created (and stored) on demand. -/
def win_process_frame (env : WinEnv) (staging : Option Texture)
    (ch : Channel Frame) : WinPfOutcome :=
  match env.surface with
  | .error _ => .skipped staging ch
  | .ok _ =>
  match env.cast_access with
  | .error _ => .skipped staging ch
  | .ok _ =>
  match env.get_interface with
  | .error _ => .skipped staging ch
  | .ok _ =>
  match env.content_size with
  | .error _ => .skipped staging ch
  | .ok size =>
  match env.get_device with
  | .error _ => .skipped staging ch
  | .ok _ =>
  match staging with
  | some t => win_process_rest env (some t) ch size
  | none =>
    match env.staging_create with
    | .error _ => .skipped none ch
    | .ok t => win_process_rest env (some t) ch size

/-- Source: `WindowsCaptureProvider::stop_capture` (`capture_provider.rs` lines
338-354): fails with `NotCapturing` when not capturing; otherwise
unregisters every active handler (failures only logged), clears the
handler list, drops the session and clears the capturing flag. -/
def win_stop_capture (p : WindowsCaptureProvider) :
    WindowsCaptureProvider × Option WindowsCaptureError :=
  if !p.capturing then (p, some .NotCapturing)
  else
    ({ p with active_handlers := [], session := none, capturing := false },
     none)

/-- Source: `Except.isOk` specialised to the oracle outcome type. -/
def exceptOk {α : Type} : Except Unit α → Bool
  | .ok _ => true
  | .error _ => false

/-- Whether `WindowsCaptureProvider::process_frame` reaches the
`read_texture` call: every earlier fallible step succeeded and a staging
texture was available or freshly created. -/
def reaches_read (env : WinEnv) (staging : Option Texture) : Bool :=
  exceptOk env.surface && exceptOk env.cast_access &&
  exceptOk env.get_interface && exceptOk env.content_size &&
  exceptOk env.get_device && (staging.isSome || exceptOk env.staging_create) &&
  exceptOk env.get_context

/-- Whether a `WindowsCaptureProvider::process_frame` outcome is a
panic escaping the callback. -/
def WinPfOutcome.isPanic : WinPfOutcome → Bool
  | .panicked _ _ => true
  | .skipped _ _ => false
  | .emitted _ _ => false

/-! ## Concrete states used by witnesses and counterexamples -/

/-- A frame-arrival environment in which every platform call succeeds,
for a 1920×1080 surface. -/
def envW : WgcEnv :=
  { surface := .ok (), cast_access := .ok (), get_interface := .ok 100,
    content_size := .ok ⟨1920, 1080⟩, get_device := .ok (),
    get_context := .ok (), desc := ⟨1920, 1080⟩,
    alloc := fun i => .ok (200 + i), map_read := .ok [],
    sys_time := .ok 0, dirty := .ok [] }

/-- A staging state with a full two-texture ring at counter 5. -/
def stW : Staging := ⟨[10, 11], 5, 1920, 1080⟩

/-- An open, empty, capacity-2 frame channel. -/
def chW : Channel Frame := ⟨2, [], false⟩

/-- A capturing `WgcCaptureProvider` with the `stW` staging ring. -/
def pW : WgcCaptureProvider := ⟨some 1, stW, some 2, some 3, [4], true⟩

/-- Source: `CreateTexture2D` outcomes that succeed once and then fail — the
first staging allocation of a fresh geometry stops halfway. -/
def alloc9 : AllocOracle := fun i => if i = 0 then .ok 7 else .error ()

/-- The staging state `ensure_staging_state` leaves behind when the
second of its two texture creations fails: one texture, geometry
recorded, counter reset. -/
def st9 : Staging := ⟨[7], 0, 1920, 1080⟩

/-- An all-success environment for the frame following the partial
allocation failure (same geometry, creations now succeed). -/
def env9 : WgcEnv := { envW with alloc := fun _ => .ok 99 }

/-- A `WindowsCaptureProvider` frame environment whose only failure is
`read_texture`. -/
def envPanic : WinEnv :=
  { surface := .ok (), cast_access := .ok (), get_interface := .ok (),
    content_size := .ok ⟨1920, 1080⟩, get_device := .ok (),
    staging_create := .ok 77, get_context := .ok (),
    read_texture_result := .error (), sys_time := .ok 0, dirty := .ok [] }

/-- A capturing `WindowsCaptureProvider` with one live handler. -/
def p4 : WindowsCaptureProvider := ⟨some 1, some 2, some 3, none, [5], true⟩

/-- A synthetic frame. -/
def frW : Frame := ⟨[], .RGBA8, ⟨0, 0⟩, 0, []⟩

/-- A freshly constructed provider: no target, no session, idle. -/
def pEmpty : WgcCaptureProvider := ⟨none, ⟨[], 0, 0, 0⟩, none, none, [], false⟩

/-- A frame channel whose consumer end is closed. -/
def chClosed : Channel Frame := ⟨2, [], true⟩

/-! ## Theorems -/

/-- Helper: `getElem?` through four cons cells. -/
theorem getElem?_cons4 {α : Type} (x1 x2 x3 x4 : α) (l : List α) (n : Nat) :
    (x1 :: x2 :: x3 :: x4 :: l)[n + 4]? = l[n]? := by
  have h : n + 4 = (((n + 1) + 1) + 1) + 1 := by omega
  rw [h]
  simp [List.getElem?_cons_succ]

/-- Helper: `bgra_to_rgba` preserves the buffer length. -/
theorem bgra_to_rgba_length (bs : List UInt8) :
    (bgra_to_rgba bs).length = bs.length := by
  induction bs using bgra_to_rgba.induct with
  | case1 b g r a rest ih => simp [bgra_to_rgba, ih]
  | case2 rest h =>
    rw [bgra_to_rgba]
    exact h

/-- Helper: `bgra_to_rgba` is an involution. -/
theorem bgra_to_rgba_involution (bs : List UInt8) :
    bgra_to_rgba (bgra_to_rgba bs) = bs := by
  induction bs using bgra_to_rgba.induct with
  | case1 b g r a rest ih => simp [bgra_to_rgba, ih]
  | case2 rest h =>
    have e : bgra_to_rgba rest = rest := by
      rw [bgra_to_rgba]
      exact h
    rw [e, e]

/-- Helper: per-pixel effect of `bgra_to_rgba` on each complete 4-byte
chunk. -/
theorem bgra_to_rgba_chunk (bs : List UInt8) :
    ∀ k : Nat, 4 * k + 3 < bs.length →
      (bgra_to_rgba bs)[4 * k]? = bs[4 * k + 2]?
      ∧ (bgra_to_rgba bs)[4 * k + 1]? = bs[4 * k + 1]?
      ∧ (bgra_to_rgba bs)[4 * k + 2]? = bs[4 * k]?
      ∧ (bgra_to_rgba bs)[4 * k + 3]? = bs[4 * k + 3]? := by
  induction bs using bgra_to_rgba.induct with
  | case1 b g r a rest ih =>
    intro k hk
    rw [bgra_to_rgba]
    cases k with
    | zero => simp
    | succ k' =>
      simp only [List.length_cons] at hk
      have h0 : 4 * (k' + 1) = 4 * k' + 4 := by ring
      have h1 : 4 * (k' + 1) + 1 = (4 * k' + 1) + 4 := by ring
      have h2 : 4 * (k' + 1) + 2 = (4 * k' + 2) + 4 := by ring
      have h3 : 4 * (k' + 1) + 3 = (4 * k' + 3) + 4 := by ring
      simp only [h0, h1, h2, h3, getElem?_cons4]
      exact ih k' (by omega)
  | case2 rest h =>
    intro k hk
    exfalso
    rcases rest with _ | ⟨b, _ | ⟨g, _ | ⟨r, _ | ⟨a, t⟩⟩⟩⟩
    · simp at hk
    · simp at hk
    · simp at hk
      omega
    · simp at hk
    · exact h b g r a t rfl

/-- Helper: the trailing `len mod 4` bytes are untouched. -/
theorem bgra_to_rgba_tail (bs : List UInt8) :
    ∀ i : Nat, 4 * (bs.length / 4) ≤ i → (bgra_to_rgba bs)[i]? = bs[i]? := by
  induction bs using bgra_to_rgba.induct with
  | case1 b g r a rest ih =>
    intro i hi
    rw [bgra_to_rgba]
    simp only [List.length_cons] at hi
    obtain ⟨j, rfl⟩ : ∃ j, i = j + 4 := ⟨i - 4, by omega⟩
    simp only [getElem?_cons4]
    exact ih j (by omega)
  | case2 rest h =>
    intro i hi
    have e : bgra_to_rgba rest = rest := by
      rw [bgra_to_rgba]
      exact h
    rw [e]

/-- C10: for every byte buffer, `bgra_to_rgba` swaps bytes 0 and 2 of
each complete 4-byte pixel and leaves pixel offsets 1 and 3 and any
trailing `len mod 4` bytes unchanged; it preserves the length and is an
involution. -/
theorem C10_bgra_to_rgba_pixels (bs : List UInt8) :
    (bgra_to_rgba bs).length = bs.length
    ∧ bgra_to_rgba (bgra_to_rgba bs) = bs
    ∧ (∀ k : Nat, 4 * k + 3 < bs.length →
        (bgra_to_rgba bs)[4 * k]? = bs[4 * k + 2]?
        ∧ (bgra_to_rgba bs)[4 * k + 1]? = bs[4 * k + 1]?
        ∧ (bgra_to_rgba bs)[4 * k + 2]? = bs[4 * k]?
        ∧ (bgra_to_rgba bs)[4 * k + 3]? = bs[4 * k + 3]?)
    ∧ (∀ i : Nat, 4 * (bs.length / 4) ≤ i →
        (bgra_to_rgba bs)[i]? = bs[i]?) :=
  ⟨bgra_to_rgba_length bs, bgra_to_rgba_involution bs,
   bgra_to_rgba_chunk bs, bgra_to_rgba_tail bs⟩

/-- Witness for C10 at the 5-byte buffer `[1, 2, 3, 4, 5]`: one complete
pixel is swapped and the trailing byte survives. -/
theorem C10_witness :
    (bgra_to_rgba [1, 2, 3, 4, 5]).length = 5
    ∧ bgra_to_rgba (bgra_to_rgba [1, 2, 3, 4, 5]) = [1, 2, 3, 4, 5]
    ∧ (bgra_to_rgba [1, 2, 3, 4, 5])[0]? = some 3
    ∧ (bgra_to_rgba [1, 2, 3, 4, 5])[4]? = some 5 := by
  have h := C10_bgra_to_rgba_pixels [1, 2, 3, 4, 5]
  refine ⟨h.1, h.2.1, ?_, ?_⟩
  · have h2 := (h.2.2.1 0 (by decide)).1
    simpa using h2
  · have h3 := h.2.2.2 4 (by decide)
    simpa using h3

/-- Helper: the packed output of `read_rows` has `rows * bytes_per_row`
bytes. -/
theorem read_rows_length (bpr p : Nat) (src : Nat → UInt8) :
    ∀ h : Nat, (read_rows bpr p src h).length = h * bpr := by
  intro h
  induction h with
  | zero => simp [read_rows]
  | succ y ih =>
    simp only [read_rows, List.length_append, List.length_map,
      List.length_range, ih]
    ring

/-- Helper: byte `i` of packed row `y` comes from mapped offset
`y * row_pitch + i`. -/
theorem read_rows_get (bpr p : Nat) (src : Nat → UInt8) :
    ∀ h y i : Nat, y < h → i < bpr →
      (read_rows bpr p src h)[y * bpr + i]? = some (src (y * p + i)) := by
  intro h
  induction h with
  | zero =>
    intro y i hy _
    exact absurd hy (Nat.not_lt_zero y)
  | succ n ih =>
    intro y i hy hi
    rw [read_rows]
    rcases Nat.lt_or_ge y n with hlt | hge
    · rw [List.getElem?_append_left]
      · exact ih y i hlt hi
      · rw [read_rows_length]
        have h1 : y * bpr + bpr ≤ n * bpr := by
          have h2 : (y + 1) * bpr ≤ n * bpr :=
            Nat.mul_le_mul_right bpr (Nat.succ_le_of_lt hlt)
          calc y * bpr + bpr = (y + 1) * bpr := by ring
          _ ≤ n * bpr := h2
        omega
    · have hy' : y = n := by omega
      subst hy'
      rw [List.getElem?_append_right]
      · rw [read_rows_length]
        have h1 : y * bpr + i - y * bpr = i := by omega
        rw [h1]
        simp [List.getElem?_map, List.getElem?_range hi]
      · rw [read_rows_length]
        omega

/-- C8: for every mapped surface with row pitch at least
`width * bytes_per_pixel`, `read_texture` produces a tightly packed
output of exactly `height * width * bytes_per_pixel` bytes in which row
`y` equals the first `width * bytes_per_pixel` bytes of the mapped data
starting at offset `y * row_pitch`. -/
theorem C8_read_texture_tightly_packed (bpp : Nat) (desc : TexDesc)
    (row_pitch : Nat) (src : Nat → UInt8)
    (hpitch : desc.Width * bpp ≤ row_pitch) :
    (read_texture bpp desc row_pitch src).length =
      desc.Height * (desc.Width * bpp)
    ∧ ∀ y : Nat, y < desc.Height → ∀ i : Nat, i < desc.Width * bpp →
        (read_texture bpp desc row_pitch src)[y * (desc.Width * bpp) + i]? =
          some (src (y * row_pitch + i)) := by
  constructor
  · exact read_rows_length (desc.Width * bpp) row_pitch src desc.Height
  · intro y hy i hi
    exact read_rows_get (desc.Width * bpp) row_pitch src desc.Height y i hy hi

/-- Witness for C8: a 2×2 surface, 4 bytes per pixel, row pitch 10 (2
padding bytes per row); the mapped data is the identity byte pattern.
Row 1, byte 3 of the packed output is mapped offset 13. -/
theorem C8_witness :
    (read_texture 4 ⟨2, 2⟩ 10 (fun n => UInt8.ofNat n)).length = 2 * (2 * 4)
    ∧ (read_texture 4 ⟨2, 2⟩ 10
        (fun n => UInt8.ofNat n))[1 * (2 * 4) + 3]? =
      some (UInt8.ofNat (1 * 10 + 3)) := by
  have h := C8_read_texture_tightly_packed 4 ⟨2, 2⟩ 10
    (fun n => UInt8.ofNat n) (by decide)
  exact ⟨h.1, h.2 1 (by decide) 3 (by decide)⟩

/-- C2: the producer-side hand-off never blocks — `try_send` is used
with the channel at its fixed capacity `PIPELINE_DEPTH = 2`; with a
consumer that never polls, sending 5 frames buffers exactly the first 2
and drops the other 3; and on a closed channel a send leaves the channel
unchanged with the error only logged, never propagated (the send step
`send_frame` returns no error at all). -/
theorem C2_channel_drop_on_full :
    (∀ f1 f2 f3 f4 f5 : Frame,
      (send_all ⟨PIPELINE_DEPTH, [], false⟩ [f1, f2, f3, f4, f5]).1.buffered
        = [f1, f2]
      ∧ (send_all ⟨PIPELINE_DEPTH, [], false⟩ [f1, f2, f3, f4, f5]).2 = 3)
    ∧ (∀ (ch : Channel Frame) (f : Frame), ch.closed = true →
        send_frame ch f = ch ∧ ch.try_send f = (ch, some .Closed))
    ∧ PIPELINE_DEPTH = 2 := by
  refine ⟨?_, ?_, rfl⟩
  · intro f1 f2 f3 f4 f5
    simp [send_all, Channel.try_send, PIPELINE_DEPTH]
  · intro ch f hc
    constructor <;> simp [send_frame, Channel.try_send, hc]

/-- Witness for C2: five copies of a synthetic frame into an open
capacity-2 channel give 3 drops and two buffered frames, and a send on
a closed channel is dropped with the channel unchanged. -/
theorem C2_witness :
    (send_all ⟨PIPELINE_DEPTH, [], false⟩ [frW, frW, frW, frW, frW]).2 = 3
    ∧ send_frame chClosed frW = chClosed := by
  exact ⟨(C2_channel_drop_on_full.1 frW frW frW frW frW).2,
    (C2_channel_drop_on_full.2.1 chClosed frW rfl).1⟩

/-- Helper: closed form of the two-iteration allocation loop. -/
theorem push_loop_two (alloc : AllocOracle) (st : Staging) :
    push_loop alloc 0 st 2 =
      match alloc 0 with
      | .error e => (st, some e)
      | .ok t0 =>
        match alloc 1 with
        | .error e => ({ st with textures := st.textures ++ [t0] }, some e)
        | .ok t1 =>
          ({ st with textures := (st.textures ++ [t0]) ++ [t1] }, none) := by
  cases h0 : alloc 0 <;> cases h1 : alloc 1 <;> simp [push_loop, h0, h1]

/-- Helper: the reallocation guard of `ensure_staging_state` is off
exactly when the ring is non-empty and the geometry matches. -/
theorem ensure_staging_state_reuse (alloc : AllocOracle) (st : Staging)
    (desc : TexDesc) (hne : st.textures ≠ []) (hw : st.width = desc.Width)
    (hh : st.height = desc.Height) :
    ensure_staging_state alloc st desc = (st, none) := by
  rw [ensure_staging_state, if_neg]
  simp [hne, hw, hh]

/-- Helper: when the guard is on, `ensure_staging_state` is the
allocation loop run from the cleared, re-geometried state. -/
theorem ensure_staging_state_realloc (alloc : AllocOracle) (st : Staging)
    (desc : TexDesc)
    (hcond : st.textures = [] ∨ st.width ≠ desc.Width ∨
      st.height ≠ desc.Height) :
    ensure_staging_state alloc st desc =
      push_loop alloc 0
        { st with textures := [], width := desc.Width,
                  height := desc.Height, frame_count := 0 }
        PIPELINE_DEPTH := by
  rw [ensure_staging_state, if_pos]
  rcases hcond with h | h | h <;> simp [h]

/-- C3: a frame whose dimensions differ from the recorded staging
geometry (or an empty staging set) makes `ensure_staging_state` discard
every staging texture and, when it succeeds, allocate exactly
`PIPELINE_DEPTH = 2` fresh textures for the new dimensions with the
frame counter reset to 0; matching dimensions leave the state untouched;
and after any success the recorded geometry equals the incoming
surface dimensions. -/
theorem C3_ensure_staging_geometry (alloc : AllocOracle) (st : Staging)
    (desc : TexDesc) :
    ((st.textures = [] ∨ st.width ≠ desc.Width ∨ st.height ≠ desc.Height) →
      (ensure_staging_state alloc st desc).2 = none →
        (ensure_staging_state alloc st desc).1.textures.length =
          PIPELINE_DEPTH
        ∧ (ensure_staging_state alloc st desc).1.width = desc.Width
        ∧ (ensure_staging_state alloc st desc).1.height = desc.Height
        ∧ (ensure_staging_state alloc st desc).1.frame_count = 0
        ∧ ∃ t0 t1, alloc 0 = .ok t0 ∧ alloc 1 = .ok t1 ∧
            (ensure_staging_state alloc st desc).1.textures = [t0, t1])
    ∧ (st.textures ≠ [] → st.width = desc.Width → st.height = desc.Height →
        ensure_staging_state alloc st desc = (st, none))
    ∧ ((ensure_staging_state alloc st desc).2 = none →
        (ensure_staging_state alloc st desc).1.width = desc.Width
        ∧ (ensure_staging_state alloc st desc).1.height = desc.Height) := by
  refine ⟨?_, ensure_staging_state_reuse alloc st desc, ?_⟩
  · intro hcond hok
    rw [ensure_staging_state_realloc alloc st desc hcond] at hok ⊢
    simp only [PIPELINE_DEPTH] at hok ⊢
    rw [push_loop_two] at hok ⊢
    cases h0 : alloc 0 with
    | error e => simp [h0] at hok
    | ok t0 =>
      cases h1 : alloc 1 with
      | error e => simp [h0, h1] at hok
      | ok t1 =>
        refine ⟨?_, ?_, ?_, ?_, t0, t1, rfl, rfl, ?_⟩ <;> simp [h0, h1]
  · intro hok
    by_cases hcond : st.textures = [] ∨ st.width ≠ desc.Width ∨
      st.height ≠ desc.Height
    · rw [ensure_staging_state_realloc alloc st desc hcond] at hok ⊢
      simp only [PIPELINE_DEPTH] at hok ⊢
      rw [push_loop_two] at hok ⊢
      cases h0 : alloc 0 with
      | error e => simp [h0] at hok
      | ok t0 =>
        cases h1 : alloc 1 with
        | error e => simp [h0, h1] at hok
        | ok t1 => simp [h0, h1]
    · push_neg at hcond
      rw [ensure_staging_state_reuse alloc st desc hcond.1 hcond.2.1
        hcond.2.2]
      exact ⟨hcond.2.1, hcond.2.2⟩

/-- Witness for C3: a first arrival at 1920×1080 on an empty staging set
allocates exactly two textures, and a second arrival with matching
geometry leaves the full ring `stW` untouched. -/
theorem C3_witness :
    (ensure_staging_state envW.alloc ⟨[], 0, 0, 0⟩ ⟨1920, 1080⟩).2 = none
    ∧ (ensure_staging_state envW.alloc
        ⟨[], 0, 0, 0⟩ ⟨1920, 1080⟩).1.textures.length = PIPELINE_DEPTH
    ∧ ensure_staging_state envW.alloc stW ⟨1920, 1080⟩ = (stW, none) := by
  have h := C3_ensure_staging_geometry envW.alloc ⟨[], 0, 0, 0⟩ ⟨1920, 1080⟩
  have h2 := (h.1 (Or.inl rfl) (by decide)).1
  have h3 := C3_ensure_staging_geometry envW.alloc stW ⟨1920, 1080⟩
  have h4 := h3.2.1 (by decide) rfl rfl
  exact ⟨by decide, h2, h4⟩

/-- C9 (failing run): `CreateTexture2D` succeeds for slot 0 and fails
for slot 1, so `ensure_staging_state` fails but leaves a one-texture
ring with matching geometry behind; the next arrival's
`ensure_staging_state` then returns success with only one staging
texture, and `process_frame`'s read-slot access
`staging.textures[(counter - 1) mod 2]` is out of bounds — the model's
explicit panic, an index-out-of-bounds panic in the Rust source. -/
theorem C9_staging_partial_alloc_out_of_bounds :
    ensure_staging_state alloc9 ⟨[], 0, 0, 0⟩ ⟨1920, 1080⟩ = (st9, some ())
    ∧ ensure_staging_state env9.alloc st9 ⟨1920, 1080⟩ = (st9, none)
    ∧ st9.textures.length = 1
    ∧ write_idx st9.frame_count = 0
    ∧ read_idx st9.frame_count = 1
    ∧ st9.textures[read_idx st9.frame_count]? = none
    ∧ wgc_process_frame env9 st9 chW = .panic st9 chW := by
  refine ⟨by decide, by decide, rfl, by decide, by decide, by decide,
    by decide⟩

/-- C1: on every successful `process_frame` run, the GPU copy targets
the staging slot at index `counter % 2` and the CPU map targets the slot
at index `(counter - 1) mod 2` (u64 wraparound), where `counter` is the
frame counter of the staging state `ensure_staging_state` returned; the
counter is then incremented.  Moreover `write_idx c = c % 2`,
`read_idx c = (c - 1) % 2` for `0 < c < 2 ^ 64`, and concretely
`read_idx 0 = 1`, counter 5 gives write slot 1 / read slot 0, and
counter 6 gives write slot 0 / read slot 1. -/
theorem C1_slot_selection :
    (∀ (env : WgcEnv) (st : Staging) (ch : Channel Frame) (st' : Staging)
        (ch' : Channel Frame) (wt rt : Texture),
      wgc_process_frame env st ch = .ok st' ch' wt rt →
        (ensure_staging_state env.alloc st env.desc).1.textures[
            write_idx
              (ensure_staging_state env.alloc st env.desc).1.frame_count]?
          = some wt
        ∧ (ensure_staging_state env.alloc st env.desc).1.textures[
            read_idx
              (ensure_staging_state env.alloc st env.desc).1.frame_count]?
          = some rt
        ∧ st'.frame_count =
            ((ensure_staging_state env.alloc st env.desc).1.frame_count + 1)
              % U64_MOD)
    ∧ (∀ c : Nat, write_idx c = c % 2)
    ∧ (∀ c : Nat, 0 < c → c < U64_MOD → read_idx c = (c - 1) % 2)
    ∧ read_idx 0 = 1
    ∧ write_idx 5 = 1 ∧ read_idx 5 = 0 ∧ write_idx 6 = 0 ∧ read_idx 6 = 1 := by
  refine ⟨?_, fun c => rfl, ?_, by decide, rfl, by decide, rfl, by decide⟩
  · intro env st ch st' ch' wt rt h
    obtain ⟨es, ec, ei, ecs, ed, ectx, desc, alloc, emr, est, edy⟩ := env
    dsimp only
    rcases es with e | u1
    · simp [wgc_process_frame] at h
    rcases ec with e | u2
    · simp [wgc_process_frame] at h
    rcases ei with e | tex
    · simp [wgc_process_frame] at h
    rcases ecs with e | size
    · simp [wgc_process_frame] at h
    rcases ed with e | u5
    · simp [wgc_process_frame] at h
    rcases ectx with e | u6
    · simp [wgc_process_frame] at h
    simp only [wgc_process_frame] at h
    cases hens : ensure_staging_state alloc st desc with
    | mk st1 o =>
      rw [hens] at h
      cases o with
      | some e => simp at h
      | none =>
        dsimp only at h ⊢
        cases hw : st1.textures[write_idx st1.frame_count]? with
        | none =>
          rw [hw] at h
          simp at h
        | some wt0 =>
          rw [hw] at h
          cases hr : st1.textures[read_idx st1.frame_count]? with
          | none =>
            rw [hr] at h
            simp at h
          | some rt0 =>
            rw [hr] at h
            cases emr with
            | error e => simp at h
            | ok data =>
              simp only [PfOutcome.ok.injEq] at h
              obtain ⟨h1, h2, h3, h4⟩ := h
              subst h3
              subst h4
              refine ⟨rfl, rfl, ?_⟩
              rw [← h1]
  · intro c hpos hlt
    rw [read_idx, U64_MOD, PIPELINE_DEPTH]
    have h64 : (2 : Nat) ^ 64 = 18446744073709551616 := by norm_num
    rw [h64]
    rw [U64_MOD, h64] at hlt
    omega

/-- Witness for C1: a successful run at counter 5 with the full ring
`[10, 11]` copies into slot 1 (texture 11) and maps slot 0 (texture
10). -/
theorem C1_witness :
    stW.textures[write_idx stW.frame_count]? = some 11
    ∧ stW.textures[read_idx stW.frame_count]? = some 10 := by
  have hrun : wgc_process_frame envW stW chW =
      .ok ⟨[10, 11], 6, 1920, 1080⟩
        ⟨2, [⟨[], .RGBA8, ⟨1920, 1080⟩, 0, []⟩], false⟩ 11 10 := by decide
  have h := C1_slot_selection.1 envW stW chW _ _ _ _ hrun
  have he : ensure_staging_state envW.alloc stW envW.desc = (stW, none) := by
    decide
  rw [he] at h
  dsimp only at h
  exact ⟨h.1, h.2.1⟩

/-- C5: `start_capture` fails with `AlreadyCapturing` while capturing
and with `NoCaptureItem` when no target is set, and every failing
`start_capture` leaves the provider state unchanged. -/
theorem C5_start_capture_errors (p : WgcCaptureProvider) (start_ok : Bool) :
    (p.capturing = true →
      wgc_start_capture p start_ok = (p, some .AlreadyCapturing))
    ∧ (p.capturing = false → p.capture_item = none →
      wgc_start_capture p start_ok = (p, some .NoCaptureItem))
    ∧ (∀ e : WindowsCaptureError,
        (wgc_start_capture p start_ok).2 = some e →
          (wgc_start_capture p start_ok).1 = p) := by
  refine ⟨?_, ?_, ?_⟩
  · intro hc
    simp [wgc_start_capture, hc]
  · intro hc hi
    simp [wgc_start_capture, hc, hi]
  · intro e he
    by_cases hc : p.capturing
    · simp [wgc_start_capture, hc]
    · by_cases hi : p.capture_item.isNone
      · simp [wgc_start_capture, hc, hi]
      · cases hs : p.session with
        | none => simp [wgc_start_capture, hc, hi, hs] at he
        | some s =>
          cases hok : start_ok with
          | false => simp [wgc_start_capture, hc, hi, hs, hok]
          | true => simp [wgc_start_capture, hc, hi, hs, hok] at he

/-- Witness for C5: starting the capturing provider `pW` fails with
`AlreadyCapturing` and leaves it unchanged; starting the idle,
target-less provider `pEmpty` fails with `NoCaptureItem`. -/
theorem C5_witness :
    wgc_start_capture pW true = (pW, some .AlreadyCapturing)
    ∧ wgc_start_capture pEmpty true = (pEmpty, some .NoCaptureItem)
    ∧ (wgc_start_capture pW true).1 = pW := by
  refine ⟨(C5_start_capture_errors pW true).1 rfl,
    (C5_start_capture_errors pEmpty true).2.1 rfl rfl,
    (C5_start_capture_errors pW true).2.2 .AlreadyCapturing ?_⟩
  rw [(C5_start_capture_errors pW true).1 rfl]

/-- C6 counterexample: `set_capture_item` on the capturing provider
`pW` does **not** fail with `AlreadyCapturing` — it succeeds, replaces
the target and resets the pipeline, contradicting the claim that
configure fails whenever the session is Capturing. -/
theorem C6_counterexample :
    pW.capturing = true
    ∧ (wgc_set_capture_item pW 42).2 ≠ some WindowsCaptureError.AlreadyCapturing
    ∧ (wgc_set_capture_item pW 42).2 = none
    ∧ (wgc_set_capture_item pW 42).1.capture_item = some 42 := by decide

/-- C6 (amended): `set_capture_item` performs no capturing-state check
and never fails: from every state, including Capturing, it stores the
new target, clears all staging textures and resets the frame counter to
0, leaving the capturing flag, session, frame pool and handler tokens
unchanged. -/
theorem C6_set_capture_item_amended (p : WgcCaptureProvider) (item : Nat) :
    (wgc_set_capture_item p item).2 = none
    ∧ (wgc_set_capture_item p item).1.capture_item = some item
    ∧ (wgc_set_capture_item p item).1.staging.textures = []
    ∧ (wgc_set_capture_item p item).1.staging.frame_count = 0
    ∧ (wgc_set_capture_item p item).1.capturing = p.capturing
    ∧ (wgc_set_capture_item p item).1.session = p.session
    ∧ (wgc_set_capture_item p item).1.frame_pool = p.frame_pool
    ∧ (wgc_set_capture_item p item).1.stream_tokens = p.stream_tokens :=
  ⟨rfl, rfl, rfl, rfl, rfl, rfl, rfl, rfl⟩

/-- C4 counterexample: on the wired-in `WindowsCaptureProvider`
(`capture_provider.rs`), the second of two successive `stop_capture`
calls does **not** succeed — it returns `NotCapturing`, contradicting
the claim that `stop()` is a success-returning no-op when not
capturing. -/
theorem C4_counterexample :
    p4.capturing = true
    ∧ (win_stop_capture p4).2 = none
    ∧ (win_stop_capture (win_stop_capture p4).1).2 =
        some WindowsCaptureError.NotCapturing := by decide

/-- C4 (amended): for `WgcCaptureProvider`, `stop_capture` when not
capturing is a no-op returning success; while capturing it releases the
session and frame pool, transitions to stopped, and — when a frame pool
exists — drains and unregisters every live handler token (if no frame
pool exists, reachable when `create_stream` pushed its token before a
failing `StartCapture`, the token list is left as it was, there being
no pool to unregister from); two successive calls both succeed leaving
the provider stopped.  For the `WindowsCaptureProvider` of
`capture_provider.rs`, stopping while capturing succeeds and clears the
handlers and session, but a `stop_capture` when not capturing — in
particular the second of two successive calls — returns the
`NotCapturing` error (with the state still stopped). -/
theorem C4_stop_capture_amended :
    (∀ p : WgcCaptureProvider, p.capturing = false →
      wgc_stop_capture p = (p, none))
    ∧ (∀ p : WgcCaptureProvider, p.capturing = true →
      (wgc_stop_capture p).2 = none
      ∧ (wgc_stop_capture p).1.capturing = false
      ∧ (wgc_stop_capture p).1.session = none
      ∧ (wgc_stop_capture p).1.frame_pool = none
      ∧ (p.frame_pool.isSome = true →
          (wgc_stop_capture p).1.stream_tokens = [])
      ∧ (p.frame_pool = none →
          (wgc_stop_capture p).1.stream_tokens = p.stream_tokens)
      ∧ (wgc_stop_capture p).1.capture_item = p.capture_item)
    ∧ (∀ p : WgcCaptureProvider,
      (wgc_stop_capture p).2 = none
      ∧ (wgc_stop_capture (wgc_stop_capture p).1).2 = none
      ∧ (wgc_stop_capture (wgc_stop_capture p).1).1.capturing = false)
    ∧ (∀ p : WindowsCaptureProvider, p.capturing = false →
      win_stop_capture p = (p, some .NotCapturing))
    ∧ (∀ p : WindowsCaptureProvider, p.capturing = true →
      (win_stop_capture p).2 = none
      ∧ (win_stop_capture p).1.capturing = false
      ∧ (win_stop_capture p).1.active_handlers = []
      ∧ (win_stop_capture p).1.session = none
      ∧ (win_stop_capture (win_stop_capture p).1).2 =
          some WindowsCaptureError.NotCapturing) := by
  refine ⟨?_, ?_, ?_, ?_, ?_⟩
  · intro p hc
    simp [wgc_stop_capture, hc]
  · intro p hc
    cases hfp : p.frame_pool with
    | none => simp [wgc_stop_capture, hc, hfp]
    | some fp => simp [wgc_stop_capture, hc, hfp]
  · intro p
    by_cases hc : p.capturing
    · cases hfp : p.frame_pool with
      | none => simp [wgc_stop_capture, hc, hfp]
      | some fp => simp [wgc_stop_capture, hc, hfp]
    · simp [wgc_stop_capture, hc]
  · intro p hc
    simp [win_stop_capture, hc]
  · intro p hc
    simp [win_stop_capture, hc]

/-- Witness for C4 (amended): stopping the capturing `pW` (which holds
a frame pool and the token list `[4]`) twice succeeds both times,
drains the tokens, and ends stopped, and stopping the capturing `p4`
then stopping again yields `NotCapturing`. -/
theorem C4_witness :
    (wgc_stop_capture pW).2 = none
    ∧ (wgc_stop_capture pW).1.stream_tokens = []
    ∧ (wgc_stop_capture (wgc_stop_capture pW).1).2 = none
    ∧ (wgc_stop_capture (wgc_stop_capture pW).1).1.capturing = false
    ∧ (win_stop_capture (win_stop_capture p4).1).2 =
        some WindowsCaptureError.NotCapturing := by
  refine ⟨(C4_stop_capture_amended.2.2.1 pW).1,
    ((C4_stop_capture_amended.2.1 pW) rfl).2.2.2.2.1 rfl,
    (C4_stop_capture_amended.2.2.1 pW).2.1,
    (C4_stop_capture_amended.2.2.1 pW).2.2,
    ((C4_stop_capture_amended.2.2.2.2 p4) rfl).2.2.2.2⟩

/-- Helper: from a staging set that is empty or full (the states
reachable when no allocation ever failed halfway), a successful
`ensure_staging_state` always yields a full `PIPELINE_DEPTH` ring. -/
theorem ensure_staging_state_len (alloc : AllocOracle) (st : Staging)
    (desc : TexDesc)
    (hlen : st.textures.length = 0 ∨ st.textures.length = PIPELINE_DEPTH)
    (hok : (ensure_staging_state alloc st desc).2 = none) :
    (ensure_staging_state alloc st desc).1.textures.length =
      PIPELINE_DEPTH := by
  by_cases hcond : st.textures = [] ∨ st.width ≠ desc.Width ∨
    st.height ≠ desc.Height
  · rw [ensure_staging_state_realloc alloc st desc hcond] at hok ⊢
    simp only [PIPELINE_DEPTH] at hok ⊢
    rw [push_loop_two] at hok ⊢
    cases h0 : alloc 0 with
    | error e => simp [h0] at hok
    | ok t0 =>
      cases h1 : alloc 1 with
      | error e => simp [h0, h1] at hok
      | ok t1 => simp [h0, h1]
  · push_neg at hcond
    rw [ensure_staging_state_reuse alloc st desc hcond.1 hcond.2.1 hcond.2.2]
    rcases hlen with h0 | h2
    · exact absurd (List.length_eq_zero.mp h0) hcond.1
    · exact h2

/-- Helper: under the same staging invariant, `process_frame` never
takes the out-of-bounds panic path — both slot indices are reduced
modulo `PIPELINE_DEPTH` and the successful `ensure_staging_state` hands
back a full ring. -/
theorem wgc_process_frame_no_panic (env : WgcEnv) (st : Staging)
    (ch : Channel Frame)
    (hlen : st.textures.length = 0 ∨ st.textures.length = PIPELINE_DEPTH) :
    ∀ (st2 : Staging) (ch2 : Channel Frame),
      wgc_process_frame env st ch ≠ .panic st2 ch2 := by
  intro st2 ch2 h
  obtain ⟨es, ec, ei, ecs, ed, ectx, desc, alloc, emr, est, edy⟩ := env
  rcases es with e | u1
  · simp [wgc_process_frame] at h
  rcases ec with e | u2
  · simp [wgc_process_frame] at h
  rcases ei with e | tex
  · simp [wgc_process_frame] at h
  rcases ecs with e | size
  · simp [wgc_process_frame] at h
  rcases ed with e | u5
  · simp [wgc_process_frame] at h
  rcases ectx with e | u6
  · simp [wgc_process_frame] at h
  simp only [wgc_process_frame] at h
  cases hens : ensure_staging_state alloc st desc with
  | mk st1 o =>
    rw [hens] at h
    cases o with
    | some e => simp at h
    | none =>
      dsimp only at h
      have hlen1 : st1.textures.length = PIPELINE_DEPTH := by
        have h2 := ensure_staging_state_len alloc st desc hlen
          (by rw [hens])
        rwa [hens] at h2
      have hwlt : write_idx st1.frame_count < st1.textures.length := by
        rw [hlen1, write_idx, PIPELINE_DEPTH]
        omega
      have hrlt : read_idx st1.frame_count < st1.textures.length := by
        rw [hlen1, read_idx, PIPELINE_DEPTH]
        omega
      rw [List.getElem?_eq_getElem hwlt, List.getElem?_eq_getElem hrlt] at h
      rcases emr with e | data <;> simp at h

/-- Helper: the continuation of `WindowsCaptureProvider::process_frame`
panics exactly when the context is obtained and `read_texture` fails
(the `.expect` call). -/
theorem win_process_rest_panic (env : WinEnv) (stg : Option Texture)
    (ch : Channel Frame) (size : Vector2) :
    (win_process_rest env stg ch size).isPanic = true ↔
      (exceptOk env.get_context = true
        ∧ exceptOk env.read_texture_result = false) := by
  obtain ⟨s, c, i, cs, d, sc, ctx, rt, sy, dy⟩ := env
  rcases ctx with e | u
  · simp [win_process_rest, exceptOk, WinPfOutcome.isPanic]
  rcases rt with e | data
  · simp [win_process_rest, exceptOk, WinPfOutcome.isPanic]
  rcases sy with e | ts <;>
    simp [win_process_rest, exceptOk, WinPfOutcome.isPanic]

/-- C7 (amended): for `WgcCaptureProvider`, whenever the staging ring is
empty or full on entry (the states reachable without a halfway-failed
allocation), every per-frame failure is caught and logged inside the
frame-arrival callback, which still returns success, and the session
state — capturing flag, session object, frame pool, registered handler
tokens, capture target — is unchanged; for the `WindowsCaptureProvider`
of `capture_provider.rs`, a frame-processing failure escapes as a panic
exactly when every step up to `read_texture` succeeded and
`read_texture` itself failed — that failure is *not* caught: it hits
`.expect` and propagates out of the callback. -/
theorem C7_frame_failures_amended :
    (∀ (step : HandlerStep) (p : WgcCaptureProvider) (ch : Channel Frame),
      (p.staging.textures.length = 0 ∨
        p.staging.textures.length = PIPELINE_DEPTH) →
      ∃ (q : WgcCaptureProvider) (ch2 : Channel Frame),
        wgc_on_frame_arrived step p ch = .returned q ch2
        ∧ q.capturing = p.capturing
        ∧ q.session = p.session
        ∧ q.frame_pool = p.frame_pool
        ∧ q.stream_tokens = p.stream_tokens
        ∧ q.capture_item = p.capture_item)
    ∧ (∀ (env : WinEnv) (stg : Option Texture) (ch : Channel Frame),
        (win_process_frame env stg ch).isPanic = true ↔
          (reaches_read env stg = true
            ∧ exceptOk env.read_texture_result = false)) := by
  constructor
  · intro step p ch hlen
    cases step with
    | no_sender => exact ⟨p, ch, rfl, rfl, rfl, rfl, rfl, rfl⟩
    | no_next_frame => exact ⟨p, ch, rfl, rfl, rfl, rfl, rfl, rfl⟩
    | frame env =>
      simp only [wgc_on_frame_arrived]
      cases hpf : wgc_process_frame env p.staging ch with
      | err e st2 ch2 => exact ⟨_, _, rfl, rfl, rfl, rfl, rfl, rfl⟩
      | panic st2 ch2 =>
        exact absurd hpf (wgc_process_frame_no_panic env p.staging ch hlen
          st2 ch2)
      | ok st2 ch2 wt rt => exact ⟨_, _, rfl, rfl, rfl, rfl, rfl, rfl⟩
  · intro env stg ch
    obtain ⟨s, c, i, cs, d, sc, ctx, rt, sy, dy⟩ := env
    rcases s with e | u1
    · simp [win_process_frame, reaches_read, exceptOk, WinPfOutcome.isPanic]
    rcases c with e | u2
    · simp [win_process_frame, reaches_read, exceptOk, WinPfOutcome.isPanic]
    rcases i with e | u3
    · simp [win_process_frame, reaches_read, exceptOk, WinPfOutcome.isPanic]
    rcases cs with e | size
    · simp [win_process_frame, reaches_read, exceptOk, WinPfOutcome.isPanic]
    rcases d with e | u5
    · simp [win_process_frame, reaches_read, exceptOk, WinPfOutcome.isPanic]
    rcases stg with _ | t
    · rcases sc with e | t0
      · simp [win_process_frame, reaches_read, exceptOk,
          WinPfOutcome.isPanic]
      · simp only [win_process_frame]
        rw [win_process_rest_panic]
        simp [reaches_read, exceptOk]
    · simp only [win_process_frame]
      rw [win_process_rest_panic]
      simp [reaches_read, exceptOk]

/-- C7 counterexample: in `WindowsCaptureProvider::process_frame`
(`capture_provider.rs` line 176), a `read_texture` failure is *not*
caught and logged — it panics via
`.expect("Unable to read texture into byte array!")` and escapes the
frame-arrival callback, contradicting the claim that every per-frame
failure is caught, logged, and merely skips the frame. -/
theorem C7_counterexample :
    win_process_frame envPanic (some 3) chW = .panicked (some 3) chW
    ∧ (win_process_frame envPanic (some 3) chW).isPanic = true := by decide

/-- Witness for C7 (amended): the all-success arrival on the capturing
provider `pW` returns from the callback with the session state intact,
and the `read_texture`-failure environment is exactly a panic case of
the characterisation. -/
theorem C7_witness :
    (∃ (q : WgcCaptureProvider) (ch2 : Channel Frame),
      wgc_on_frame_arrived (.frame envW) pW chW = .returned q ch2
      ∧ q.capturing = pW.capturing
      ∧ q.session = pW.session
      ∧ q.frame_pool = pW.frame_pool
      ∧ q.stream_tokens = pW.stream_tokens
      ∧ q.capture_item = pW.capture_item)
    ∧ ((win_process_frame envPanic (some 3) chW).isPanic = true ↔
        (reaches_read envPanic (some 3) = true
          ∧ exceptOk envPanic.read_texture_result = false)) :=
  ⟨C7_frame_failures_amended.1 (.frame envW) pW chW (Or.inr rfl),
   C7_frame_failures_amended.2 envPanic (some 3) chW⟩

end Loki
